import Mathlib

/-!
# Verification of the scoring-engine flag lifecycle and scoring aggregation

Shallow embedding of the repository's flag API views
(`scoring_engine/web/views/api/flags.py`), red-team scoring helpers
(`scoring_engine/red_team_scoring.py`) and the score-adjustment model
(`scoring_engine/models/score_adjustment.py`).

Times are modelled as integers (naive UTC seconds).  Request payload fields
arrive already JSON-decoded: string fields are `Option String`, integer
fields `Option Int` (`none` = key absent / unparseable where the source
coerces).  Database tables are lists of rows in insertion order.
-/

namespace ScoringEngine

/-- Enum `Platform` of the Flag model (`Platform.windows`, `Platform.nix`). -/
inductive Platform where
  | windows
  | nix
deriving DecidableEq, Repr

/-- Enum `Perm` of the Flag model (`Perm.user`, `Perm.root`). -/
inductive Perm where
  | user
  | root
deriving DecidableEq, Repr

/-- Enum `FlagTypeEnum` of the Flag model; the views only ever use `file`. -/
inductive FlagTypeEnum where
  | file
deriving DecidableEq, Repr

/-- The JSON `data` payload of a flag.  The views probe exactly the keys
`"flag"` and `"content"` (both string-valued when present) and guard with
`isinstance(flag_obj.data, dict)`; `notDict` models a non-dict payload. -/
inductive FlagData where
  | notDict
  | dict (flagVal : Option String) (contentVal : Option String)
deriving DecidableEq, Repr

structure Flag where
  id : Int
  type : FlagTypeEnum
  platform : Platform
  perm : Perm
  data : FlagData
  start_time : Int
  end_time : Int
  dummy : Bool
deriving DecidableEq, Repr

structure Team where
  id : Int
  color : String
deriving DecidableEq, Repr

def Team.is_blue_team (t : Team) : Bool := t.color == "Blue"

structure User where
  id : Int
  team : Team
deriving DecidableEq, Repr

def User.is_red_team (u : User) : Bool := u.team.color == "Red"

def User.is_white_team (u : User) : Bool := u.team.color == "White"

structure RedFlagSubmission where
  flag_id : Int
  target_team_id : Int
  submitted_by_team_id : Int
  submitted_by_user_id : Int
  points : Int
  submitted_at : Int
deriving DecidableEq, Repr

structure ScoreAdjustment where
  target_team_id : Int
  adjusted_by_team_id : Int
  adjusted_by_user_id : Int
  points : Int
  reason : Option String
  created_at : Int
deriving DecidableEq, Repr

structure Setting where
  name : String
  value : String
deriving DecidableEq, Repr

/-- A `Solve` row: agent evidence that a flag token was observed on a host
owned by a team.  Only the columns the queries read are modelled. -/
structure Solve where
  team_id : Int
  host : String
  flag_id : Int
deriving DecidableEq, Repr

/-- The database state read and written by the flag views. -/
structure DBState where
  teams : List Team
  flags : List Flag
  submissions : List RedFlagSubmission
  adjustments : List ScoreAdjustment
  settings : List Setting
  solves : List Solve
deriving DecidableEq, Repr

/-! ## Python string / int primitives used by the views -/

/-- Whitespace characters removed by Python's `str.strip()`. -/
def isPySpace (c : Char) : Bool :=
  c == ' ' || c == '\t' || c == '\n' || c == '\r' || c == Char.ofNat 11 || c == Char.ofNat 12

/-- Python `str.strip()` on the character list: drop whitespace from both ends. -/
def pyStripList (l : List Char) : List Char :=
  List.rdropWhile isPySpace (List.dropWhile isPySpace l)

/-- Python `str.strip()`. -/
def pyStrip (s : String) : String := String.mk (pyStripList s.data)

/-- Python `str.lower()` (ASCII-relevant part). -/
def pyLower (s : String) : String := String.mk (s.data.map Char.toLower)

/-- Python truthiness of an optional string value (`None` and `""` falsy). -/
def truthyStr : Option String → Bool
  | none => false
  | some s => s != ""

/-- Python truthiness of an optional integer value (`None` and `0` falsy). -/
def truthyInt : Option Int → Bool
  | none => false
  | some n => n != 0

def parseDigitsAux : List Char → Nat → Option Nat
  | [], acc => some acc
  | c :: cs, acc =>
    if c.isDigit then parseDigitsAux cs (acc * 10 + (c.toNat - 48)) else none

def parseDigits : List Char → Option Nat
  | [] => none
  | cs => parseDigitsAux cs 0

/-- Model of Python's `int(str)` on decimal string forms: surrounding
whitespace is ignored, an optional sign precedes the digits; anything else
raises `ValueError` (modelled as `none`). -/
def pyInt? (s : String) : Option Int :=
  match pyStripList s.data with
  | '-' :: rest => (parseDigits rest).map (fun n => -(n : Int))
  | '+' :: rest => (parseDigits rest).map (fun n => (n : Int))
  | cs => (parseDigits cs).map (fun n => (n : Int))

/-! ## Settings and red-team scoring (`scoring_engine/red_team_scoring.py`) -/

/-- Modelled from the spec: `Setting.get_setting` (the model file
`scoring_engine/models/setting.py` is not part of the sources here).
"Setting: process-wide configuration keyed by name" — the accessor returns
the setting row with the given name, if any. -/
def get_setting (settings : List Setting) (name : String) : Option Setting :=
  settings.find? (fun s => s.name == name)

def DEFAULT_RED_FLAG_SUBMISSION_PENALTY : Int := 10

/-- Function `get_red_flag_submission_penalty` from `red_team_scoring.py`: default on
a missing setting row, `int(setting.value)` otherwise, falling back to the
default when the conversion raises. -/
def get_red_flag_submission_penalty (settings : List Setting) : Int :=
  match get_setting settings "red_team_flag_submission_penalty" with
  | none => DEFAULT_RED_FLAG_SUBMISSION_PENALTY
  | some st =>
    match pyInt? st.value with
    | some v => v
    | none => DEFAULT_RED_FLAG_SUBMISSION_PENALTY

/-- Function `get_blue_team_manual_adjustment_points` from `red_team_scoring.py`,
read off for one team: the grouped `sum(points)` over `ScoreAdjustment`
rows with this `target_team_id`. -/
def get_blue_team_manual_adjustment_points
    (adjustments : List ScoreAdjustment) (team_id : Int) : Int :=
  (((adjustments.filter (fun a => a.target_team_id == team_id)).map
    (fun a => a.points)).sum)

/-- Function `get_blue_team_penalty_points` from `red_team_scoring.py`, read off for
one team: the grouped `sum(points)` over `RedFlagSubmission` rows with this
`target_team_id`. -/
def get_blue_team_penalty_points
    (submissions : List RedFlagSubmission) (team_id : Int) : Int :=
  (((submissions.filter (fun r => r.target_team_id == team_id)).map
    (fun r => r.points)).sum)

/-! ## `_get_flag_token` (`flags.py` lines 42-51) -/

/-- Accessor `_get_flag_token`: `None` for a non-dict payload; else the stripped
string under `"flag"` when truthy, else the stripped string under
`"content"` when truthy, else `None`. -/
def _get_flag_token (f : Flag) : Option String :=
  match f.data with
  | .notDict => none
  | .dict flagVal contentVal =>
    if truthyStr flagVal then flagVal.map pyStrip
    else if truthyStr contentVal then contentVal.map pyStrip
    else none

/-- Value of `f.data.get("content")` as used by the list serializer (flags persisted
by this application always carry a dict payload). -/
def dataGetContent (f : Flag) : Option String :=
  match f.data with
  | .notDict => none
  | .dict _ contentVal => contentVal

/-! ## `GET /api/flags` (`flags.py` lines 54-93) -/

/-- One serialized row of the `/api/flags` response. -/
structure FlagRow where
  id : Int
  flag : Option String
  content : Option String
deriving DecidableEq, Repr

/-- Insertion step of the stable sort embedding `order_by(Flag.start_time)`. -/
def insertByStart (f : Flag) : List Flag → List Flag
  | [] => [f]
  | g :: t => if f.start_time ≤ g.start_time then f :: g :: t else g :: insertByStart f t

/-- Sort `order_by(Flag.start_time)` on the filtered flag list. -/
def sortByStart : List Flag → List Flag
  | [] => []
  | f :: t => insertByStart f (sortByStart t)

/-- One flag of the `/api/flags` response (lines 84-91):
`{id, flag: _get_flag_token(f), content: f.data.get("content")}`. -/
def serializeFlag (f : Flag) : FlagRow :=
  ⟨f.id, _get_flag_token f, dataGetContent f⟩

/-- Lookahead `int(Setting.get_setting("agent_show_flag_early_mins").value)`; `none`
models the view raising (missing row or unparseable value). -/
def agent_show_flag_early_mins (settings : List Setting) : Option Int :=
  (get_setting settings "agent_show_flag_early_mins").bind (fun st => pyInt? st.value)

/-- The flag query of `/api/flags` (lines 63-81): filter
`early > start_time ∧ now < end_time ∧ ¬dummy`, order by `start_time`, then
for a red-team caller keep only flags already submitted by that team. -/
def api_flags_query (s : DBState) (u : User) (now : Int) (earlyMins : Int) : List Flag :=
  let early := now + earlyMins * 60
  let flags := sortByStart (s.flags.filter
    (fun f => decide (early > f.start_time) && decide (now < f.end_time) && f.dummy == false))
  if u.is_red_team then
    flags.filter (fun f =>
      s.submissions.any (fun r =>
        r.submitted_by_team_id == u.team.id && r.flag_id == f.id))
  else
    flags

inductive ListFlagsResult where
  | unauthorized
  | settingFault
  | ok (rows : List FlagRow)
deriving DecidableEq, Repr

/-- Endpoint `GET /api/flags`: role gate, query, then serialization of each flag to
`{id, flag: _get_flag_token(f), content: f.data.get("content")}`. -/
def api_flags (s : DBState) (u : User) (now : Int) : ListFlagsResult :=
  match s.teams.find? (fun t => t.id == u.team.id) with
  | none => .unauthorized
  | some team =>
    if !(team == u.team) || !(u.is_red_team || u.is_white_team) then .unauthorized
    else
      match agent_show_flag_early_mins s.settings with
      | none => .settingFault
      | some m => .ok ((api_flags_query s u now m).map serializeFlag)

/-! ## `POST /api/flags/add` (`flags.py` lines 96-135) -/

/-- Request payload of `/api/flags/add`.  `start_time`/`end_time` arrive
through `_parse_datetime_input`, which yields `None` for an absent, empty or
unparseable value; so they are modelled as already-parsed `Option Int`. -/
structure AddRequest where
  content : Option String
  dummy : Option String
  start_time : Option Int
  end_time : Option Int
deriving DecidableEq, Repr

inductive AddResult where
  | permissionError
  | contentRequired
  | badTimeWindow
  | ok (flag_id : Int)
deriving DecidableEq, Repr

/-- Autoincremented primary key for a freshly inserted flag. -/
def newFlagId (s : DBState) : Int :=
  (s.flags.map (fun f => f.id)).foldr max 0 + 1

/-- Test `str(payload.get("dummy", "false")).strip().lower() in {"true","1","yes","on"}`. -/
def parseDummy (dummy : Option String) : Bool :=
  let raw := pyLower (pyStrip (dummy.getD "false"))
  raw == "true" || raw == "1" || raw == "yes" || raw == "on"

/-- The flag row built by `api_flags_add` on the success path. -/
def mkNewFlag (s : DBState) (req : AddRequest) (now : Int) : Flag :=
  let content := pyStrip (req.content.getD "")
  let start_time := req.start_time.getD now
  let end_time := req.end_time.getD (start_time + 3 * 3600)
  ⟨newFlagId s, .file, .nix, .user, .dict none (some content),
    start_time, end_time, parseDummy req.dummy⟩

/-- Endpoint `POST /api/flags/add`: white-team only; `content` required (stripped,
non-empty); `start_time` defaults to now, `end_time` to `start_time + 3h`;
reject `end_time ≤ start_time`; persist the new flag. -/
def api_flags_add (s : DBState) (u : User) (req : AddRequest) (now : Int) :
    AddResult × DBState :=
  if !u.is_white_team then (.permissionError, s)
  else
    let content := pyStrip (req.content.getD "")
    if content == "" then (.contentRequired, s)
    else
      let start_time := req.start_time.getD now
      let end_time := req.end_time.getD (start_time + 3 * 3600)
      if end_time ≤ start_time then (.badTimeWindow, s)
      else
        let f := mkNewFlag s req now
        (.ok f.id, { s with flags := s.flags ++ [f] })

/-! ## `POST /api/flags/adjust_score` (`flags.py` lines 138-183) -/

structure AdjustRequest where
  team_id : Option Int
  points : Option Int
  reason : Option String
deriving DecidableEq, Repr

inductive AdjustResult where
  | permissionError
  | missingFields
  | invalidTarget
  | ok (team_id : Int) (points : Int)
deriving DecidableEq, Repr

/-- Endpoint `POST /api/flags/adjust_score`: white-team only; `team_id` and `points`
required integers; target must be a blue team; persist a `ScoreAdjustment`. -/
def api_flags_adjust_score (s : DBState) (u : User) (req : AdjustRequest)
    (now : Int) : AdjustResult × DBState :=
  if !u.is_white_team then (.permissionError, s)
  else
    match req.team_id, req.points with
    | some tid, some pts =>
      (match s.teams.find? (fun t => t.id == tid) with
      | none => (.invalidTarget, s)
      | some target =>
        if !target.is_blue_team then (.invalidTarget, s)
        else
          let reason := pyStrip (req.reason.getD "")
          let adj : ScoreAdjustment :=
            ⟨target.id, u.team.id, u.id, pts,
              (if reason == "" then none else some reason), now⟩
          (.ok target.id pts, { s with adjustments := s.adjustments ++ [adj] }))
    | _, _ => (.missingFields, s)

/-! ## `POST /api/flags/submit` (`flags.py` lines 186-267) -/

/-- Request payload of `/api/flags/submit`. -/
structure SubmitRequest where
  flag_id : Option Int
  content : Option String
  flag : Option String
  flag_value : Option String
  submitted_flag : Option String
  team_id : Option Int
deriving DecidableEq, Repr

/-- Chain `payload.get("content") or payload.get("flag") or payload.get("flag_value")
or payload.get("submitted_flag")` — Python `or` keeps the first truthy
operand, else the last operand. -/
def SubmitRequest.submittedValue (r : SubmitRequest) : Option String :=
  let pick := fun (a b : Option String) => if truthyStr a then a else b
  pick r.content (pick r.flag (pick r.flag_value r.submitted_flag))

inductive SubmitResult where
  | permissionError
  | teamIdRequired
  | flagRequired
  | invalidTarget
  | notFound
  | notActive
  | conflict
  | ok (flag_id : Int) (team_id : Int) (points_deducted : Int)
deriving DecidableEq, Repr

/-- The per-candidate test of the token scan (lines 228-233): the candidate's
window contains `now` and its truthy token equals the stripped submitted
value. -/
def tokenMatches (now : Int) (value : String) (f : Flag) : Bool :=
  (decide (f.start_time ≤ now) && decide (now ≤ f.end_time)) &&
  (match _get_flag_token f with
   | some t => t != "" && t == pyStrip value
   | none => false)

/-- The token scan of the submit view (lines 221-233): iterate the non-dummy
flags, skip those whose window does not contain `now`, return the first whose
truthy token equals the stripped submitted value. -/
def resolveByToken (flags : List Flag) (now : Int) (value : String) : Option Flag :=
  (flags.filter (fun f => f.dummy == false)).find? (tokenMatches now value)

/-- Flag resolution of the submit view (lines 217-233): direct primary-key
lookup when a truthy `flag_id` is given, else the token scan. -/
def resolveFlag (s : DBState) (req : SubmitRequest) (now : Int) : Option Flag :=
  if truthyInt req.flag_id then
    match req.flag_id with
    | some fid => s.flags.find? (fun f => f.id == fid)
    | none => none
  else
    match req.submittedValue with
    | some v => resolveByToken s.flags now v
    | none => none

/-- Modelled from the spec: the commit of a `RedFlagSubmission` (the model
file `scoring_engine/models/flag.py` is not part of the sources here).
"RedFlagSubmission: (flag, target blue team) pair with a uniqueness
invariant: at most one submission per (flag, target_team) ever exists" —
committing a duplicate raises `IntegrityError` (`none`) and the transaction
is rolled back; otherwise the row is appended. -/
def commitRedFlagSubmission (s : DBState) (sub : RedFlagSubmission) :
    Option DBState :=
  if s.submissions.any (fun r =>
      r.flag_id == sub.flag_id && r.target_team_id == sub.target_team_id)
  then none
  else some { s with submissions := s.submissions ++ [sub] }

/-- Endpoint `POST /api/flags/submit`: red-team only; `team_id` required and must name
a blue team; a flag id or token required; resolve the flag; reject dummy or
out-of-window flags; persist the submission under the uniqueness constraint,
answering 409 on a duplicate. -/
def api_flags_submit (s : DBState) (u : User) (req : SubmitRequest) (now : Int) :
    SubmitResult × DBState :=
  if !u.is_red_team then (.permissionError, s)
  else if !truthyInt req.team_id then (.teamIdRequired, s)
  else if !truthyInt req.flag_id && !truthyStr req.submittedValue then
    (.flagRequired, s)
  else
    match req.team_id with
    | none => (.teamIdRequired, s)
    | some tid =>
      match s.teams.find? (fun t => t.id == tid) with
      | none => (.invalidTarget, s)
      | some target =>
        if !target.is_blue_team then (.invalidTarget, s)
        else
          match resolveFlag s req now with
          | none => (.notFound, s)
          | some flag =>
            if flag.dummy ||
                !(decide (flag.start_time ≤ now) && decide (now ≤ flag.end_time)) then
              (.notActive, s)
            else
              let points := get_red_flag_submission_penalty s.settings
              let sub : RedFlagSubmission :=
                ⟨flag.id, target.id, u.team.id, u.id, points, now⟩
              match commitRedFlagSubmission s sub with
              | none => (.conflict, s)
              | some s' => (.ok flag.id target.id points, s')

/-! ## `GET /api/flags/totals` (`flags.py` lines 339-407) -/

/-- Grouping key of `subquery1`: `(Solve.team_id, Solve.host,
Flag.start_time)` (the platform component is constant after the filter). -/
structure GroupKey where
  team_id : Int
  host : String
  start_time : Int
deriving DecidableEq, Repr

/-- The inner join `Solve ⋈ Flag` on `Flag.id == Solve.flag_id`. -/
def joinSolveFlag (solves : List Solve) (flags : List Flag) :
    List (Solve × Flag) :=
  solves.flatMap (fun sv =>
    (flags.filter (fun f => f.id == sv.flag_id)).map (fun f => (sv, f)))

/-- Joined rows restricted to one platform (`filter(Flag.platform == p)`). -/
def platformRows (p : Platform) (s : DBState) : List (Solve × Flag) :=
  (joinSolveFlag s.solves s.flags).filter (fun r => r.2.platform == p)

def rowKey (r : Solve × Flag) : GroupKey := ⟨r.1.team_id, r.1.host, r.2.start_time⟩

/-- The distinct groups of `subquery1` for one platform. -/
def groupKeys (p : Platform) (s : DBState) : List GroupKey :=
  ((platformRows p s).map rowKey).dedup

/-- The `level` column of `subquery1`: `"root"` iff the group's `max` of
`case(Flag.perm == root, 1, else 0)` is 1, i.e. some row of the group has a
root-permission flag. -/
def groupLevelRoot (p : Platform) (s : DBState) (k : GroupKey) : Bool :=
  (platformRows p s).any (fun r => rowKey r == k && r.2.perm == Perm.root)

/-- Composition of `subquery2` and the final query, composed and read off per team: the
root-level groups count once each, the user-level groups count `0.5` each,
`red_amt` summed per team. -/
def platformScore (p : Platform) (s : DBState) (team_id : Int) : ℚ :=
  let keys := (groupKeys p s).filter (fun k => k.team_id == team_id)
  let rootCount := keys.countP (fun k => groupLevelRoot p s k)
  let userCount := keys.countP (fun k => !(groupLevelRoot p s k))
  1 * (rootCount : ℚ) + (1 / 2) * (userCount : ℚ)

/-- The per-group weighted sum the specification describes: each group of a
team contributes its own weight (`1` for a Root-level group, `0.5` for a
User-level group). -/
def platformScoreSpec (p : Platform) (s : DBState) (team_id : Int) : ℚ :=
  (((groupKeys p s).filter (fun k => k.team_id == team_id)).map
    (fun k => if groupLevelRoot p s k then (1 : ℚ) else 1 / 2)).sum

/-- Relation `total_score = win_score + nix_score` of the totals response. -/
def teamTotalScore (s : DBState) (team_id : Int) : ℚ :=
  platformScore .windows s team_id + platformScore .nix s team_id

/-- Number of persisted `RedFlagSubmission` rows for one
`(flag, target_team)` pair. -/
def pairCount (submissions : List RedFlagSubmission) (fid tid : Int) : Nat :=
  submissions.countP (fun r => r.flag_id == fid && r.target_team_id == tid)

/-! ## Concrete fixtures used by counterexamples and witnesses -/

def blueTeam : Team := ⟨1, "Blue"⟩

def redTeam : Team := ⟨2, "Red"⟩

def whiteTeam : Team := ⟨3, "White"⟩

def redUser : User := ⟨10, redTeam⟩

def whiteUser : User := ⟨11, whiteTeam⟩

/-- An active, non-dummy flag with token `"tok"` and window `[0, 100]`. -/
def tokFlag : Flag := ⟨1, .file, .nix, .user, .dict none (some "tok"), 0, 100, false⟩

/-- A dummy flag, same window. -/
def dummyFlag : Flag := ⟨2, .file, .nix, .user, .dict none (some "dtok"), 0, 100, true⟩

/-- A non-dummy flag with token `"late"` whose window `[200, 300]` has not
yet started at `now = 50`. -/
def lateFlag : Flag := ⟨3, .file, .nix, .user, .dict none (some "late"), 200, 300, false⟩

def baseState : DBState :=
  ⟨[blueTeam, redTeam, whiteTeam], [tokFlag, dummyFlag, lateFlag], [], [], [], []⟩

/-- State `baseState` with an already-persisted submission of `tokFlag` against
`blueTeam` by `redTeam`. -/
def dupState : DBState :=
  { baseState with submissions := [⟨1, 1, 2, 10, 10, 20⟩] }

/-- A state whose only flag starts exactly at `now + lookahead` minutes
(`agent_show_flag_early_mins = 1`, flag starts at 60 seconds). -/
def boundaryFlag : Flag := ⟨4, .file, .nix, .user, .dict none (some "b"), 60, 1000, false⟩

def boundaryState : DBState :=
  ⟨[blueTeam, redTeam, whiteTeam], [boundaryFlag], [], [], [⟨"agent_show_flag_early_mins", "1"⟩], []⟩

/-- A settings table configuring a negative submission penalty. -/
def negPenaltySettings : List Setting := [⟨"red_team_flag_submission_penalty", "-5"⟩]

/-- A Windows/Root flag for exercising the totals queries. -/
def winFlag : Flag := ⟨5, .file, .windows, .root, .dict none (some "w"), 0, 100, false⟩

/-- A state with one solve of the Windows/Root flag. -/
def winSolveState : DBState := ⟨[], [winFlag], [], [], [], [⟨1, "h", 5⟩]⟩

/-- A state with one solve of the Nix/User flag `tokFlag`. -/
def userSolveState : DBState := ⟨[], [tokFlag], [], [], [], [⟨1, "h", 1⟩]⟩

/-! ## Shared helper lemmas -/

/-- Lemma: `dropWhile` fixed points are preserved by `rdropWhile`. -/
theorem dropWhile_fix_rdropWhile (p : Char → Bool) :
    ∀ l : List Char, List.dropWhile p l = l →
      List.dropWhile p (List.rdropWhile p l) = List.rdropWhile p l := by
  intro l
  induction l using List.reverseRecOn with
  | nil => intro _; simp
  | append_singleton xs a ih =>
    intro h
    rw [List.rdropWhile_concat]
    by_cases hpa : p a = true
    · rw [if_pos hpa]
      apply ih
      cases xs with
      | nil =>
        exfalso
        rw [List.nil_append, List.dropWhile_cons_of_pos hpa] at h
        simp at h
      | cons b t =>
        rw [List.cons_append] at h
        by_cases hpb : p b = true
        · exfalso
          rw [List.dropWhile_cons_of_pos hpb] at h
          have hlen := congrArg List.length h
          have hle := (List.dropWhile_suffix p (l := t ++ [a])).length_le
          simp at hlen hle
          omega
        · exact List.dropWhile_cons_of_neg hpb
    · rw [if_neg hpa]
      exact h

/-- Python's `strip` is idempotent (character-list form). -/
theorem pyStripList_idem (l : List Char) :
    pyStripList (pyStripList l) = pyStripList l := by
  unfold pyStripList
  rw [dropWhile_fix_rdropWhile _ _ (List.dropWhile_idempotent _ _),
    List.rdropWhile_idempotent]

/-- Python's `strip` is idempotent. -/
theorem pyStrip_idem (s : String) : pyStrip (pyStrip s) = pyStrip s :=
  congrArg String.mk (pyStripList_idem s.data)

theorem mem_insertByStart (f g : Flag) (l : List Flag) :
    g ∈ insertByStart f l ↔ g = f ∨ g ∈ l := by
  induction l with
  | nil => simp [insertByStart]
  | cons h t ih =>
    simp only [insertByStart]
    split
    · simp
    · simp [ih]
      tauto

/-- Sorting by `start_time` preserves membership. -/
theorem mem_sortByStart (g : Flag) (l : List Flag) :
    g ∈ sortByStart l ↔ g ∈ l := by
  induction l with
  | nil => simp [sortByStart]
  | cons h t ih => simp [sortByStart, mem_insertByStart, ih]

/-- Splitting a weighted sum over a boolean classification into the two
per-class counts. -/
theorem sum_map_ite {α : Type} (w₁ w₂ : ℚ) (f : α → Bool) (l : List α) :
    (l.map (fun k => if f k then w₁ else w₂)).sum =
      w₁ * (l.countP f : ℚ) + w₂ * (l.countP (fun k => !(f k)) : ℚ) := by
  induction l with
  | nil => simp
  | cons h t ih =>
    by_cases hf : f h = true
    · simp [List.countP_cons, hf, ih]
      ring
    · simp only [Bool.not_eq_true] at hf
      simp [List.countP_cons, hf, ih]
      ring


theorem adjust_ok_shape (s : DBState) (u : User) (req : AdjustRequest)
    (now tid pts : Int) (s' : DBState)
    (h : api_flags_adjust_score s u req now = (.ok tid pts, s')) :
    ∃ reason, s'.adjustments =
      s.adjustments ++ [⟨tid, u.team.id, u.id, pts, reason, now⟩] := by
  unfold api_flags_adjust_score at h
  split at h
  · simp at h
  · split at h
    · rename_i tid' pts' heq
      split at h
      · simp at h
      · split at h
        · simp at h
        · simp only [Prod.mk.injEq, AdjustResult.ok.injEq] at h
          obtain ⟨⟨h1, h2⟩, h3⟩ := h
          subst h3
          refine ⟨if pyStrip (req.reason.getD "") == "" then none
            else some (pyStrip (req.reason.getD "")), ?_⟩
          simp [← h1, ← h2]
    · simp at h

/-- C7: the manual-adjustment score term is the additive, sign-significant
sum of ScoreAdjustment points for the team: appending one adjustment adds its
points exactly when it targets the team, so +10 then −10 restores the
pre-adjustment term and +50 then −20 contributes exactly +30. -/
theorem c7_manual_adjustment_additive :
    ∀ (s : DBState) (u : User) (tid : Int) (r : Option String) (n₁ n₂ : Int)
      (s₁ s₂ : DBState),
    (∀ (adjustments : List ScoreAdjustment) (a : ScoreAdjustment),
      get_blue_team_manual_adjustment_points (adjustments ++ [a]) tid =
        get_blue_team_manual_adjustment_points adjustments tid +
          (if a.target_team_id == tid then a.points else 0)) ∧
    (api_flags_adjust_score s u ⟨some tid, some 10, r⟩ n₁ = (.ok tid 10, s₁) →
     api_flags_adjust_score s₁ u ⟨some tid, some (-10), r⟩ n₂ = (.ok tid (-10), s₂) →
     get_blue_team_manual_adjustment_points s₂.adjustments tid =
       get_blue_team_manual_adjustment_points s.adjustments tid) ∧
    (api_flags_adjust_score s u ⟨some tid, some 50, r⟩ n₁ = (.ok tid 50, s₁) →
     api_flags_adjust_score s₁ u ⟨some tid, some (-20), r⟩ n₂ = (.ok tid (-20), s₂) →
     get_blue_team_manual_adjustment_points s₂.adjustments tid =
       get_blue_team_manual_adjustment_points s.adjustments tid + 30) := by
  intro s u tid r n₁ n₂ s₁ s₂
  have hadd : ∀ (adjustments : List ScoreAdjustment) (a : ScoreAdjustment),
      get_blue_team_manual_adjustment_points (adjustments ++ [a]) tid =
        get_blue_team_manual_adjustment_points adjustments tid +
          (if a.target_team_id == tid then a.points else 0) := by
    intro adjustments a
    unfold get_blue_team_manual_adjustment_points
    rw [List.filter_append, List.map_append, List.sum_append]
    by_cases ha : a.target_team_id == tid
    · simp [List.filter, ha]
    · simp [List.filter, ha]
  refine ⟨hadd, ?_, ?_⟩
  · intro h1 h2
    obtain ⟨r1, e1⟩ := adjust_ok_shape _ _ _ _ _ _ _ h1
    obtain ⟨r2, e2⟩ := adjust_ok_shape _ _ _ _ _ _ _ h2
    rw [e2, hadd, e1, hadd]
    simp
  · intro h1 h2
    obtain ⟨r1, e1⟩ := adjust_ok_shape _ _ _ _ _ _ _ h1
    obtain ⟨r2, e2⟩ := adjust_ok_shape _ _ _ _ _ _ _ h2
    rw [e2, hadd, e1, hadd]
    simp
    ring

theorem c7_witness :
    (get_blue_team_manual_adjustment_points
      ((api_flags_adjust_score
          (api_flags_adjust_score baseState whiteUser ⟨some 1, some 10, none⟩ 0).2
          whiteUser ⟨some 1, some (-10), none⟩ 0).2).adjustments 1 =
      get_blue_team_manual_adjustment_points baseState.adjustments 1) ∧
    (get_blue_team_manual_adjustment_points
      ((api_flags_adjust_score
          (api_flags_adjust_score baseState whiteUser ⟨some 1, some 50, none⟩ 0).2
          whiteUser ⟨some 1, some (-20), none⟩ 0).2).adjustments 1 =
      get_blue_team_manual_adjustment_points baseState.adjustments 1 + 30) := by
  constructor
  · exact (c7_manual_adjustment_additive baseState whiteUser 1 none 0 0
      (api_flags_adjust_score baseState whiteUser ⟨some 1, some 10, none⟩ 0).2
      (api_flags_adjust_score
        (api_flags_adjust_score baseState whiteUser ⟨some 1, some 10, none⟩ 0).2
        whiteUser ⟨some 1, some (-10), none⟩ 0).2).2.1 (by decide) (by decide)
  · exact (c7_manual_adjustment_additive baseState whiteUser 1 none 0 0
      (api_flags_adjust_score baseState whiteUser ⟨some 1, some 50, none⟩ 0).2
      (api_flags_adjust_score
        (api_flags_adjust_score baseState whiteUser ⟨some 1, some 50, none⟩ 0).2
        whiteUser ⟨some 1, some (-20), none⟩ 0).2).2.2 (by decide) (by decide)

/-- C4 counterexample: a configured value of `"-5"` parses and is returned
as-is, so the result is a negative integer, refuting "the returned value is
an int ≥ 0". -/
theorem c4_penalty_counterexample :
    get_red_flag_submission_penalty negPenaltySettings = -5 ∧
    ¬(0 ≤ get_red_flag_submission_penalty negPenaltySettings) := by decide

/-- C4 (amended): reading the penalty setting always yields a typed integer:
default 10 when the setting is absent or malformed, otherwise the parsed
value (sign-preserving, so it can be negative). -/
theorem c4_penalty_typed_fallback :
    ∀ (settings : List Setting),
    (get_setting settings "red_team_flag_submission_penalty" = none →
      get_red_flag_submission_penalty settings = 10) ∧
    (∀ st, get_setting settings "red_team_flag_submission_penalty" = some st →
      pyInt? st.value = none → get_red_flag_submission_penalty settings = 10) ∧
    (∀ st n, get_setting settings "red_team_flag_submission_penalty" = some st →
      pyInt? st.value = some n → get_red_flag_submission_penalty settings = n) := by
  intro settings
  refine ⟨?_, ?_, ?_⟩
  · intro h
    simp only [get_red_flag_submission_penalty, h, DEFAULT_RED_FLAG_SUBMISSION_PENALTY]
  · intro st h hp
    simp only [get_red_flag_submission_penalty, h, hp, DEFAULT_RED_FLAG_SUBMISSION_PENALTY]
  · intro st n h hp
    simp only [get_red_flag_submission_penalty, h, hp]

theorem c4_penalty_typed_fallback_witness :
    get_red_flag_submission_penalty [] = 10 ∧
    get_red_flag_submission_penalty [⟨"red_team_flag_submission_penalty", "abc"⟩] = 10 ∧
    get_red_flag_submission_penalty [⟨"red_team_flag_submission_penalty", "7"⟩] = 7 :=
  ⟨(c4_penalty_typed_fallback []).1 (by decide),
   (c4_penalty_typed_fallback _).2.1 ⟨"red_team_flag_submission_penalty", "abc"⟩
     (by decide) (by decide),
   (c4_penalty_typed_fallback _).2.2 ⟨"red_team_flag_submission_penalty", "7"⟩ 7
     (by decide) (by decide)⟩

/-- C8: for each platform and team the totals computation sums one weight
per distinct (team, host, start_time) group — 1 for a Root-level group,
0.5 for a User-level group — a group being Root-level exactly when some
solved flag of the group requires Root; the reported total is the sum of the
two per-platform scores. -/
theorem c8_attacker_totals :
    ∀ (p : Platform) (s : DBState) (team_id : Int),
    platformScore p s team_id = platformScoreSpec p s team_id ∧
    teamTotalScore s team_id =
      platformScoreSpec .windows s team_id + platformScoreSpec .nix s team_id ∧
    ∀ k : GroupKey, (groupLevelRoot p s k = true ↔
      ∃ r, r ∈ platformRows p s ∧ rowKey r = k ∧ r.2.perm = Perm.root) := by
  intro p s team_id
  have key : ∀ q, platformScore q s team_id = platformScoreSpec q s team_id := by
    intro q
    simp only [platformScore, platformScoreSpec]
    rw [sum_map_ite]
  refine ⟨key p, ?_, ?_⟩
  · unfold teamTotalScore
    rw [key, key]
  · intro k
    unfold groupLevelRoot
    simp only [List.any_eq_true, Bool.and_eq_true, beq_iff_eq]


/-- C5: flag creation rejects empty/missing content and `end_time ≤
start_time` before any persistence; `start_time` defaults to now and
`end_time` to `start_time + 3h`; a persisted flag satisfies
`start_time < end_time`. -/
theorem c5_flag_creation_validation :
    ∀ (s : DBState) (u : User) (req : AddRequest) (now : Int),
    (u.is_white_team = true → pyStrip (req.content.getD "") = "" →
      api_flags_add s u req now = (.contentRequired, s)) ∧
    (u.is_white_team = true → pyStrip (req.content.getD "") ≠ "" →
      req.end_time.getD ((req.start_time.getD now) + 3 * 3600) ≤ req.start_time.getD now →
      api_flags_add s u req now = (.badTimeWindow, s)) ∧
    ((mkNewFlag s req now).start_time = req.start_time.getD now ∧
     (mkNewFlag s req now).end_time =
       req.end_time.getD ((req.start_time.getD now) + 3 * 3600)) ∧
    (∀ fid s', api_flags_add s u req now = (.ok fid, s') →
      s'.flags = s.flags ++ [mkNewFlag s req now] ∧
      (mkNewFlag s req now).start_time < (mkNewFlag s req now).end_time) := by
  intro s u req now
  refine ⟨?_, ?_, ⟨rfl, rfl⟩, ?_⟩
  · intro hw hc
    simp [api_flags_add, hw, hc]
  · intro hw hc hle
    simp only [api_flags_add, hw, Bool.not_true, Bool.false_eq_true, if_false]
    rw [if_neg (by simpa using hc), if_pos hle]
  · intro fid s' h
    by_cases hw : u.is_white_team = true
    · simp only [api_flags_add, hw, Bool.not_true, Bool.false_eq_true, if_false] at h
      split at h
      · simp at h
      · split at h
        · simp at h
        · rename_i hc hlt
          rw [Prod.mk.injEq, AddResult.ok.injEq] at h
          obtain ⟨h1, h2⟩ := h
          subst h2
          refine ⟨rfl, ?_⟩
          simp only [mkNewFlag]
          omega
    · simp [api_flags_add, hw] at h

theorem c5_witness :
    api_flags_add baseState whiteUser ⟨some "  ", none, none, none⟩ 0 =
      (.contentRequired, baseState) ∧
    api_flags_add baseState whiteUser ⟨some "x", none, some 100, some 50⟩ 0 =
      (.badTimeWindow, baseState) ∧
    ((mkNewFlag baseState ⟨some "x", none, none, none⟩ 0).start_time = 0 ∧
     (mkNewFlag baseState ⟨some "x", none, none, none⟩ 0).end_time = 10800) ∧
    ((api_flags_add baseState whiteUser ⟨some "x", none, none, none⟩ 0).2.flags =
      baseState.flags ++ [mkNewFlag baseState ⟨some "x", none, none, none⟩ 0] ∧
     (mkNewFlag baseState ⟨some "x", none, none, none⟩ 0).start_time <
       (mkNewFlag baseState ⟨some "x", none, none, none⟩ 0).end_time) := by
  refine ⟨?_, ?_, ?_, ?_⟩
  · exact (c5_flag_creation_validation baseState whiteUser ⟨some "  ", none, none, none⟩ 0).1
      (by decide) (by decide)
  · exact (c5_flag_creation_validation baseState whiteUser ⟨some "x", none, some 100, some 50⟩ 0).2.1
      (by decide) (by decide) (by decide)
  · exact ⟨by decide, by decide⟩
  · exact (c5_flag_creation_validation baseState whiteUser ⟨some "x", none, none, none⟩ 0).2.2.2
      4 (api_flags_add baseState whiteUser ⟨some "x", none, none, none⟩ 0).2 (by decide)

/-- C6 counterexample: with `agent_show_flag_early_mins = 1`, a flag starting
exactly at `now + 60` seconds satisfies the claim's condition
`now + lookahead ≥ start_time` yet is not listed, because the code uses the
strict comparison `early > Flag.start_time`. -/
theorem c6_lookahead_counterexample :
    api_flags boundaryState whiteUser 0 = .ok [] ∧
    boundaryFlag ∈ boundaryState.flags ∧ boundaryFlag.dummy = false ∧
    (0 : Int) < boundaryFlag.end_time ∧
    (0 : Int) + 1 * 60 ≥ boundaryFlag.start_time := by
  refine ⟨by decide, by decide, by decide, by decide, by decide⟩

/-- C6 (amended): listing returns exactly the non-dummy flags with
`now < end_time` and `now + lookahead > start_time` (strictly); a non-red
caller sees all of them, a red-team caller only those its own team already
submitted; under an authorized user and a parseable lookahead setting the
endpoint serializes exactly the query result. -/
theorem c6_list_active_visibility :
    ∀ (s : DBState) (u : User) (now m : Int) (f : Flag),
    (u.is_red_team = false →
      (f ∈ api_flags_query s u now m ↔
        f ∈ s.flags ∧ now + m * 60 > f.start_time ∧ now < f.end_time ∧
          f.dummy = false)) ∧
    (u.is_red_team = true →
      (f ∈ api_flags_query s u now m ↔
        f ∈ s.flags ∧ now + m * 60 > f.start_time ∧ now < f.end_time ∧
          f.dummy = false ∧
          ∃ r, r ∈ s.submissions ∧ r.submitted_by_team_id = u.team.id ∧
            r.flag_id = f.id)) ∧
    (∀ t, s.teams.find? (fun x => x.id == u.team.id) = some t → t = u.team →
      (u.is_red_team = true ∨ u.is_white_team = true) →
      agent_show_flag_early_mins s.settings = some m →
      api_flags s u now = .ok ((api_flags_query s u now m).map serializeFlag)) := by
  intro s u now m f
  refine ⟨?_, ?_, ?_⟩
  · intro hred
    simp [api_flags_query, hred, mem_sortByStart, List.mem_filter,
      Bool.and_eq_true, decide_eq_true_eq, beq_iff_eq]
    tauto
  · intro hred
    simp [api_flags_query, hred, mem_sortByStart, List.mem_filter,
      List.any_eq_true, Bool.and_eq_true, decide_eq_true_eq, beq_iff_eq]
    tauto
  · intro t hfind hteq hrole hm
    have hrw : (u.is_red_team || u.is_white_team) = true := by
      rcases hrole with h | h <;> simp [h]
    subst hteq
    simp [api_flags, hfind, hrw, hm]

theorem c6_witness :
    ((boundaryFlag ∈ api_flags_query boundaryState whiteUser 10 1 ↔
      boundaryFlag ∈ boundaryState.flags ∧
        (10 : Int) + 1 * 60 > boundaryFlag.start_time ∧
        (10 : Int) < boundaryFlag.end_time ∧ boundaryFlag.dummy = false)) ∧
    api_flags boundaryState whiteUser 10 =
      .ok ((api_flags_query boundaryState whiteUser 10 1).map serializeFlag) := by
  constructor
  · exact (c6_list_active_visibility boundaryState whiteUser 10 1 boundaryFlag).1
      (by decide)
  · exact (c6_list_active_visibility boundaryState whiteUser 10 1 boundaryFlag).2.2
      whiteTeam (by decide) (by decide) (Or.inr (by decide)) (by decide)


/-- Once the role, team and flag-field checks pass and the target team is
blue, the submit view is the residual flag-resolution program. -/
theorem submit_reaches_resolution (s : DBState) (u : User) (req : SubmitRequest)
    (now tid : Int) (target : Team)
    (hred : u.is_red_team = true)
    (hteam : req.team_id = some tid)
    (htid : truthyInt req.team_id = true)
    (hflag : truthyInt req.flag_id = true ∨ truthyStr req.submittedValue = true)
    (hfind : s.teams.find? (fun t => t.id == tid) = some target)
    (hblue : target.is_blue_team = true) :
    api_flags_submit s u req now =
      (match resolveFlag s req now with
       | none => (.notFound, s)
       | some flag =>
         if flag.dummy ||
             !(decide (flag.start_time ≤ now) && decide (now ≤ flag.end_time)) then
           (.notActive, s)
         else
           match commitRedFlagSubmission s
               ⟨flag.id, target.id, u.team.id, u.id,
                 get_red_flag_submission_penalty s.settings, now⟩ with
           | none => (.conflict, s)
           | some s' =>
             (.ok flag.id target.id (get_red_flag_submission_penalty s.settings),
               s')) := by
  have hfl : (!truthyInt req.flag_id && !truthyStr req.submittedValue) = false := by
    rcases hflag with h | h <;> simp [h]
  rw [hteam] at htid
  simp [api_flags_submit, hred, hteam, htid, hfl, hfind, hblue]

/-- A successful submit returns the configured penalty, presupposes no
existing row for its (flag, target) pair, and appends exactly that row. -/
theorem submit_ok_shape (s : DBState) (u : User) (req : SubmitRequest)
    (now fid tid p : Int) (s' : DBState)
    (h : api_flags_submit s u req now = (.ok fid tid p, s')) :
    p = get_red_flag_submission_penalty s.settings ∧
    pairCount s.submissions fid tid = 0 ∧
    s' = { s with submissions :=
      s.submissions ++ [⟨fid, tid, u.team.id, u.id, p, now⟩] } := by
  unfold api_flags_submit at h
  split at h
  · simp at h
  · split at h
    · simp at h
    · split at h
      · simp at h
      · split at h
        · simp at h
        · split at h
          · simp at h
          · split at h
            · simp at h
            · split at h
              · simp at h
              · split at h
                · simp at h
                · simp only [] at h
                  split at h
                  · simp at h
                  · rename_i s2 hcommit
                    simp only [Prod.mk.injEq, SubmitResult.ok.injEq] at h
                    obtain ⟨⟨h1, h2, h3⟩, h4⟩ := h
                    subst h1
                    subst h2
                    subst h3
                    subst h4
                    unfold commitRedFlagSubmission at hcommit
                    split at hcommit
                    · simp at hcommit
                    · rename_i hany
                      rw [Option.some.injEq] at hcommit
                      subst hcommit
                      refine ⟨rfl, ?_, rfl⟩
                      unfold pairCount
                      rw [List.countP_eq_zero]
                      intro r hr
                      intro hcontra
                      exact hany (List.any_eq_true.mpr ⟨r, hr, hcontra⟩)

/-- C2 counterexample: `lateFlag`'s token matches the submitted string but
its window has not started at `now = 50`; the view answers NotFound (it
never answers NotActive on the token path), refuting the claimed NotActive
outcome. -/
theorem c2_token_resolution_counterexample :
    api_flags_submit baseState redUser ⟨none, some "late", none, none, none, some 1⟩ 50
      = (.notFound, baseState) ∧
    lateFlag ∈ baseState.flags ∧ lateFlag.dummy = false ∧
    _get_flag_token lateFlag = some "late" ∧
    ¬(lateFlag.start_time ≤ 50 ∧ (50 : Int) ≤ lateFlag.end_time) ∧
    SubmitResult.notFound ≠ SubmitResult.notActive := by
  refine ⟨by decide, by decide, by decide, by decide, by decide, by decide⟩

/-- C2 (amended): token resolution scans non-dummy flags whose window
contains `now` for one whose truthy token equals the stripped submitted
string, first match winning; when no active flag's token matches — also
when only expired or not-yet-started flags carry a matching token — the
submit view answers NotFound. -/
theorem c2_token_resolution :
    ∀ (s : DBState) (u : User) (req : SubmitRequest) (now : Int) (v : String)
      (tid : Int) (target : Team),
    (∀ f, resolveByToken s.flags now v = some f →
      f ∈ s.flags ∧ f.dummy = false ∧ f.start_time ≤ now ∧ now ≤ f.end_time ∧
      ∃ t, _get_flag_token f = some t ∧ t ≠ "" ∧ t = pyStrip v) ∧
    (∀ (f : Flag) (rest : List Flag), f.dummy = false → f.start_time ≤ now →
      now ≤ f.end_time → ∀ t, _get_flag_token f = some t → t ≠ "" →
      t = pyStrip v → resolveByToken (f :: rest) now v = some f) ∧
    ((∀ f ∈ s.flags, f.dummy = false → tokenMatches now v f = false) →
      resolveByToken s.flags now v = none) ∧
    (u.is_red_team = true → req.team_id = some tid → truthyInt req.team_id = true →
      truthyInt req.flag_id = false → req.submittedValue = some v →
      truthyStr req.submittedValue = true →
      s.teams.find? (fun x => x.id == tid) = some target →
      target.is_blue_team = true →
      resolveByToken s.flags now v = none →
      api_flags_submit s u req now = (.notFound, s)) := by
  intro s u req now v tid target
  refine ⟨?_, ?_, ?_, ?_⟩
  · intro f h
    unfold resolveByToken at h
    have hmem := List.mem_of_find?_eq_some h
    have hpred := List.find?_some h
    rw [List.mem_filter] at hmem
    obtain ⟨hmf, hdummy⟩ := hmem
    refine ⟨hmf, by simpa using hdummy, ?_⟩
    unfold tokenMatches at hpred
    simp only [Bool.and_eq_true, decide_eq_true_eq] at hpred
    obtain ⟨⟨hA, hB⟩, hM⟩ := hpred
    refine ⟨hA, hB, ?_⟩
    cases htok : _get_flag_token f with
    | none => rw [htok] at hM; simp at hM
    | some t =>
      rw [htok] at hM
      simp only [bne_iff_ne, ne_eq, Bool.and_eq_true, beq_iff_eq] at hM
      exact ⟨t, rfl, hM.1, hM.2⟩
  · intro f rest hdummy hst hen t htok hne heq
    subst heq
    have hp : tokenMatches now v f = true := by
      unfold tokenMatches
      rw [htok]
      simp [hst, hen, hne]
    unfold resolveByToken
    rw [List.filter_cons_of_pos (by simp [hdummy]), List.find?_cons_of_pos _ hp]
  · intro hmiss
    unfold resolveByToken
    rw [List.find?_eq_none]
    intro f hf
    rw [List.mem_filter] at hf
    obtain ⟨hmf, hdummy⟩ := hf
    rw [hmiss f hmf (by simpa using hdummy)]
    simp
  · intro hred hteam htid hfid hval htv hfind hblue hnone
    have hres : resolveFlag s req now = none := by
      simp [resolveFlag, hfid, hval, hnone]
    rw [submit_reaches_resolution s u req now tid target hred hteam htid
      (Or.inr htv) hfind hblue, hres]

theorem c2_token_resolution_witness :
    (tokFlag ∈ baseState.flags ∧ tokFlag.dummy = false ∧
      tokFlag.start_time ≤ 50 ∧ (50 : Int) ≤ tokFlag.end_time ∧
      ∃ t, _get_flag_token tokFlag = some t ∧ t ≠ "" ∧ t = pyStrip "tok") ∧
    resolveByToken (tokFlag :: [lateFlag]) 50 "tok" = some tokFlag ∧
    resolveByToken baseState.flags 50 "zzz" = none ∧
    api_flags_submit baseState redUser ⟨none, some "zzz", none, none, none, some 1⟩ 50
      = (.notFound, baseState) := by
  refine ⟨?_, ?_, ?_, ?_⟩
  · exact (c2_token_resolution baseState redUser
      ⟨none, some "tok", none, none, none, some 1⟩ 50 "tok" 1 blueTeam).1
      tokFlag (by decide)
  · exact (c2_token_resolution baseState redUser
      ⟨none, some "tok", none, none, none, some 1⟩ 50 "tok" 1 blueTeam).2.1
      tokFlag [lateFlag] (by decide) (by decide) (by decide) "tok" (by decide)
      (by decide) (by decide)
  · exact (c2_token_resolution baseState redUser
      ⟨none, some "zzz", none, none, none, some 1⟩ 50 "zzz" 1 blueTeam).2.2.1
      (by decide)
  · exact (c2_token_resolution baseState redUser
      ⟨none, some "zzz", none, none, none, some 1⟩ 50 "zzz" 1 blueTeam).2.2.2
      (by decide) (by decide) (by decide) (by decide) (by decide) (by decide)
      (by decide) (by decide) (by decide)

/-- C3: the submit view answers NotActive (state unchanged) when the
resolved flag is a dummy or `now` lies outside its window, InvalidTarget
(state unchanged) when the target team is missing or not blue, and on
success the deducted points equal the configured red-team penalty. -/
theorem c3_submit_error_paths :
    ∀ (s : DBState) (u : User) (req : SubmitRequest) (now tid : Int)
      (target : Team) (flag : Flag),
    (u.is_red_team = true → req.team_id = some tid → truthyInt req.team_id = true →
      (truthyInt req.flag_id = true ∨ truthyStr req.submittedValue = true) →
      s.teams.find? (fun x => x.id == tid) = some target →
      target.is_blue_team = true →
      resolveFlag s req now = some flag →
      (flag.dummy = true ∨ ¬(flag.start_time ≤ now ∧ now ≤ flag.end_time)) →
      api_flags_submit s u req now = (.notActive, s)) ∧
    (u.is_red_team = true → req.team_id = some tid → truthyInt req.team_id = true →
      (truthyInt req.flag_id = true ∨ truthyStr req.submittedValue = true) →
      (s.teams.find? (fun x => x.id == tid) = none ∨
        (s.teams.find? (fun x => x.id == tid) = some target ∧
          target.is_blue_team = false)) →
      api_flags_submit s u req now = (.invalidTarget, s)) ∧
    (∀ (fid tid' p : Int) (s' : DBState),
      api_flags_submit s u req now = (.ok fid tid' p, s') →
      p = get_red_flag_submission_penalty s.settings) := by
  intro s u req now tid target flag
  refine ⟨?_, ?_, ?_⟩
  · intro hred hteam htid hflag hfind hblue hres hbad
    rw [submit_reaches_resolution s u req now tid target hred hteam htid
      hflag hfind hblue, hres]
    have hcond : (flag.dummy ||
        !(decide (flag.start_time ≤ now) && decide (now ≤ flag.end_time))) = true := by
      rcases hbad with h | h
      · simp [h]
      · rcases not_and_or.mp h with h' | h'
        · simp [h']
        · simp [h']
    exact if_pos hcond
  · intro hred hteam htid hflag hbad
    have hfl : (!truthyInt req.flag_id && !truthyStr req.submittedValue) = false := by
      rcases hflag with h | h <;> simp [h]
    rw [hteam] at htid
    rcases hbad with hnone | ⟨hfind, hnb⟩
    · simp [api_flags_submit, hred, hteam, htid, hfl, hnone]
    · simp [api_flags_submit, hred, hteam, htid, hfl, hfind, hnb]
  · intro fid tid' p s' h
    exact (submit_ok_shape s u req now fid tid' p s' h).1

theorem c3_submit_error_paths_witness :
    api_flags_submit baseState redUser ⟨some 2, none, none, none, none, some 1⟩ 50
      = (.notActive, baseState) ∧
    api_flags_submit baseState redUser ⟨some 1, none, none, none, none, some 2⟩ 50
      = (.invalidTarget, baseState) ∧
    (10 : Int) = get_red_flag_submission_penalty baseState.settings := by
  refine ⟨?_, ?_, ?_⟩
  · exact (c3_submit_error_paths baseState redUser
      ⟨some 2, none, none, none, none, some 1⟩ 50 1 blueTeam dummyFlag).1
      (by decide) (by decide) (by decide) (Or.inl (by decide)) (by decide)
      (by decide) (by decide) (Or.inl (by decide))
  · exact (c3_submit_error_paths baseState redUser
      ⟨some 1, none, none, none, none, some 2⟩ 50 2 redTeam tokFlag).2.1
      (by decide) (by decide) (by decide) (Or.inl (by decide))
      (Or.inr ⟨by decide, by decide⟩)
  · exact (c3_submit_error_paths baseState redUser
      ⟨none, some "tok", none, none, none, some 1⟩ 50 1 blueTeam tokFlag).2.2
      1 1 10 (api_flags_submit baseState redUser
        ⟨none, some "tok", none, none, none, some 1⟩ 50).2 (by decide)


/-- Every termination of the submit view either leaves the state unchanged
or reports success. -/
theorem submit_result_shape (s : DBState) (u : User) (req : SubmitRequest)
    (now : Int) (r : SubmitResult) (s2 : DBState)
    (h : api_flags_submit s u req now = (r, s2)) :
    s2 = s ∨ ∃ fid tid p, r = .ok fid tid p := by
  unfold api_flags_submit at h
  split at h
  · injection h with h1 h2; exact Or.inl h2.symm
  · split at h
    · injection h with h1 h2; exact Or.inl h2.symm
    · split at h
      · injection h with h1 h2; exact Or.inl h2.symm
      · split at h
        · injection h with h1 h2; exact Or.inl h2.symm
        · split at h
          · injection h with h1 h2; exact Or.inl h2.symm
          · split at h
            · injection h with h1 h2; exact Or.inl h2.symm
            · split at h
              · injection h with h1 h2; exact Or.inl h2.symm
              · split at h
                · injection h with h1 h2; exact Or.inl h2.symm
                · simp only [] at h
                  split at h
                  · injection h with h1 h2; exact Or.inl h2.symm
                  · injection h with h1 h2
                    exact Or.inr ⟨_, _, _, h1.symm⟩

/-- C1: at most one RedFlagSubmission row ever exists per (flag, target
team): a call that resolves to a pair already persisted answers Conflict
and leaves the state untouched, a successful call starts from zero rows for
its pair and ends with exactly one, and no call ever pushes a pair's row
count above one. -/
theorem c1_submission_uniqueness :
    ∀ (s : DBState) (u : User) (req : SubmitRequest) (now : Int),
    (∀ fid tid, pairCount s.submissions fid tid ≤ 1 →
      pairCount (api_flags_submit s u req now).2.submissions fid tid ≤ 1) ∧
    (∀ (tid : Int) (target : Team) (flag : Flag),
      u.is_red_team = true → req.team_id = some tid → truthyInt req.team_id = true →
      (truthyInt req.flag_id = true ∨ truthyStr req.submittedValue = true) →
      s.teams.find? (fun x => x.id == tid) = some target →
      target.is_blue_team = true →
      resolveFlag s req now = some flag → flag.dummy = false →
      flag.start_time ≤ now → now ≤ flag.end_time →
      1 ≤ pairCount s.submissions flag.id target.id →
      api_flags_submit s u req now = (.conflict, s)) ∧
    (∀ (fid tid p : Int) (s' : DBState),
      api_flags_submit s u req now = (.ok fid tid p, s') →
      pairCount s.submissions fid tid = 0 ∧ pairCount s'.submissions fid tid = 1 ∧
      s'.teams = s.teams ∧ s'.flags = s.flags ∧ s'.adjustments = s.adjustments ∧
      s'.settings = s.settings ∧ s'.solves = s.solves) := by
  intro s u req now
  refine ⟨?_, ?_, ?_⟩
  · intro fid tid hle
    rcases hpair : api_flags_submit s u req now with ⟨r, s2⟩
    rcases submit_result_shape s u req now r s2 hpair with hsame | ⟨fid', tid', p', hr⟩
    · rw [hsame]
      exact hle
    · subst hr
      obtain ⟨hp, h0, hs⟩ := submit_ok_shape s u req now fid' tid' p' s2 hpair
      subst hs
      show pairCount (s.submissions ++ [⟨fid', tid', u.team.id, u.id, p', now⟩]) fid tid ≤ 1
      unfold pairCount at h0 hle ⊢
      rw [List.countP_append]
      have hsing : List.countP
          (fun r => r.flag_id == fid && r.target_team_id == tid)
          [(⟨fid', tid', u.team.id, u.id, p', now⟩ : RedFlagSubmission)] =
          if (fid' == fid && tid' == tid) = true then 1 else 0 := by
        simp [List.countP_cons]
      rw [hsing]
      by_cases hm : (fid' == fid && tid' == tid) = true
      · rw [if_pos hm]
        simp only [Bool.and_eq_true, beq_iff_eq] at hm
        obtain ⟨e1, e2⟩ := hm
        subst e1
        subst e2
        omega
      · rw [if_neg hm]
        omega
  · intro tid target flag hred hteam htid hflag hfind hblue hres hdummy hst hen hcnt
    have hany : s.submissions.any
        (fun r => r.flag_id == flag.id && r.target_team_id == target.id) = true := by
      have hpos : 0 < s.submissions.countP
          (fun r => r.flag_id == flag.id && r.target_team_id == target.id) := by
        unfold pairCount at hcnt
        omega
      obtain ⟨r, hr, hpr⟩ := List.countP_pos_iff.mp hpos
      exact List.any_eq_true.mpr ⟨r, hr, hpr⟩
    rw [submit_reaches_resolution s u req now tid target hred hteam htid
      hflag hfind hblue, hres]
    have hcommit : commitRedFlagSubmission s
        ⟨flag.id, target.id, u.team.id, u.id,
          get_red_flag_submission_penalty s.settings, now⟩ = none := by
      unfold commitRedFlagSubmission
      rw [if_pos hany]
    show (if flag.dummy ||
          !(decide (flag.start_time ≤ now) && decide (now ≤ flag.end_time)) then
        ((SubmitResult.notActive, s) : SubmitResult × DBState)
      else
        match commitRedFlagSubmission s
            ⟨flag.id, target.id, u.team.id, u.id,
              get_red_flag_submission_penalty s.settings, now⟩ with
        | none => (SubmitResult.conflict, s)
        | some s' =>
          (SubmitResult.ok flag.id target.id
            (get_red_flag_submission_penalty s.settings), s')) =
      (SubmitResult.conflict, s)
    rw [if_neg (by simp [hdummy, hst, hen]), hcommit]
  · intro fid tid p s' h
    obtain ⟨hp, h0, hs⟩ := submit_ok_shape s u req now fid tid p s' h
    subst hs
    refine ⟨h0, ?_, rfl, rfl, rfl, rfl, rfl⟩
    show pairCount (s.submissions ++ [⟨fid, tid, u.team.id, u.id, p, now⟩]) fid tid = 1
    unfold pairCount at h0 ⊢
    rw [List.countP_append, h0]
    simp

theorem c1_submission_uniqueness_witness :
    api_flags_submit dupState redUser ⟨none, some "tok", none, none, none, some 1⟩ 50
      = (.conflict, dupState) ∧
    pairCount
      (api_flags_submit dupState redUser
        ⟨none, some "tok", none, none, none, some 1⟩ 50).2.submissions 1 1 ≤ 1 ∧
    (pairCount baseState.submissions 1 1 = 0 ∧
      pairCount (api_flags_submit baseState redUser
        ⟨none, some "tok", none, none, none, some 1⟩ 50).2.submissions 1 1 = 1 ∧
      (api_flags_submit baseState redUser
        ⟨none, some "tok", none, none, none, some 1⟩ 50).2.teams = baseState.teams ∧
      (api_flags_submit baseState redUser
        ⟨none, some "tok", none, none, none, some 1⟩ 50).2.flags = baseState.flags ∧
      (api_flags_submit baseState redUser
        ⟨none, some "tok", none, none, none, some 1⟩ 50).2.adjustments =
        baseState.adjustments ∧
      (api_flags_submit baseState redUser
        ⟨none, some "tok", none, none, none, some 1⟩ 50).2.settings =
        baseState.settings ∧
      (api_flags_submit baseState redUser
        ⟨none, some "tok", none, none, none, some 1⟩ 50).2.solves =
        baseState.solves) := by
  refine ⟨?_, ?_, ?_⟩
  · exact (c1_submission_uniqueness dupState redUser
      ⟨none, some "tok", none, none, none, some 1⟩ 50).2.1 1 blueTeam tokFlag
      (by decide) (by decide) (by decide) (Or.inr (by decide)) (by decide)
      (by decide) (by decide) (by decide) (by decide) (by decide) (by decide)
  · exact (c1_submission_uniqueness dupState redUser
      ⟨none, some "tok", none, none, none, some 1⟩ 50).1 1 1 (by decide)
  · exact (c1_submission_uniqueness baseState redUser
      ⟨none, some "tok", none, none, none, some 1⟩ 50).2.2 1 1 10
      (api_flags_submit baseState redUser
        ⟨none, some "tok", none, none, none, some 1⟩ 50).2 (by decide)

theorem c8_attacker_totals_witness :
    platformScore .nix userSolveState 1 = platformScoreSpec .nix userSolveState 1 ∧
    teamTotalScore userSolveState 1 =
      platformScoreSpec .windows userSolveState 1 +
        platformScoreSpec .nix userSolveState 1 :=
  ⟨(c8_attacker_totals .nix userSolveState 1).1,
   (c8_attacker_totals .nix userSolveState 1).2.1⟩

/-- C9: the canonical token accessor returns the stripped `"flag"` value
when truthy, else the stripped `"content"` value when truthy, else none
(none for a non-dict payload); the listing serializer and the submit-time
matcher both go through this accessor, and a flag created by the add view is
submittable using its content string as the token. -/
theorem c9_flag_token_accessor :
    ∀ (f : Flag) (s : DBState) (u : User) (req : AddRequest) (now : Int),
    (f.data = .notDict → _get_flag_token f = none) ∧
    (∀ fv cv, f.data = .dict fv cv →
      _get_flag_token f =
        (if truthyStr fv then fv.map pyStrip
         else if truthyStr cv then cv.map pyStrip else none)) ∧
    (serializeFlag f).flag = _get_flag_token f ∧
    (∀ (now' : Int) (v : String), tokenMatches now' v f = true ↔
      (f.start_time ≤ now' ∧ now' ≤ f.end_time ∧
        ∃ t, _get_flag_token f = some t ∧ t ≠ "" ∧ t = pyStrip v)) ∧
    (∀ fid s', api_flags_add s u req now = (.ok fid, s') →
      _get_flag_token (mkNewFlag s req now) = some (pyStrip (req.content.getD "")) ∧
      pyStrip (req.content.getD "") ≠ "" ∧
      (∀ t', (mkNewFlag s req now).start_time ≤ t' →
        t' ≤ (mkNewFlag s req now).end_time →
        tokenMatches t' (req.content.getD "") (mkNewFlag s req now) = true)) := by
  intro f s u req now
  refine ⟨?_, ?_, rfl, ?_, ?_⟩
  · intro h
    unfold _get_flag_token
    rw [h]
  · intro fv cv h
    unfold _get_flag_token
    rw [h]
  · intro now' v
    unfold tokenMatches
    cases htok : _get_flag_token f with
    | none =>
      simp [htok]
    | some t =>
      simp only [htok, Bool.and_eq_true, decide_eq_true_eq, bne_iff_ne, ne_eq,
        beq_iff_eq, Option.some.injEq]
      constructor
      · rintro ⟨⟨h1, h2⟩, h3, h4⟩
        exact ⟨h1, h2, t, rfl, h3, h4⟩
      · rintro ⟨h1, h2, t', ht', h3, h4⟩
        subst ht'
        exact ⟨⟨h1, h2⟩, h3, h4⟩
  · intro fid s' h
    by_cases hw : u.is_white_team = true
    · by_cases hc : (pyStrip (req.content.getD "") == "") = true
      · simp [api_flags_add, hw, hc] at h
      · have hne : pyStrip (req.content.getD "") ≠ "" := by simpa using hc
        have htok : _get_flag_token (mkNewFlag s req now) =
            some (pyStrip (req.content.getD "")) := by
          simp [mkNewFlag, _get_flag_token, truthyStr, hne, pyStrip_idem]
        refine ⟨htok, hne, ?_⟩
        intro t' h1 h2
        unfold tokenMatches
        rw [htok]
        simp [h1, h2, hne]
    · simp [api_flags_add, hw] at h

theorem c9_flag_token_accessor_witness :
    (_get_flag_token (mkNewFlag baseState ⟨some " Tok ", none, none, none⟩ 0) =
      some (pyStrip " Tok ") ∧
     pyStrip " Tok " ≠ "" ∧
     tokenMatches 12 " Tok "
       (mkNewFlag baseState ⟨some " Tok ", none, none, none⟩ 0) = true) ∧
    (tokenMatches 50 "tok" tokFlag = true ↔
      (tokFlag.start_time ≤ 50 ∧ (50 : Int) ≤ tokFlag.end_time ∧
        ∃ t, _get_flag_token tokFlag = some t ∧ t ≠ "" ∧ t = pyStrip "tok")) := by
  constructor
  · have h := (c9_flag_token_accessor
      (mkNewFlag baseState ⟨some " Tok ", none, none, none⟩ 0) baseState whiteUser
      ⟨some " Tok ", none, none, none⟩ 0).2.2.2.2 4
      (api_flags_add baseState whiteUser ⟨some " Tok ", none, none, none⟩ 0).2
      (by decide)
    exact ⟨h.1, h.2.1, h.2.2 12 (by decide) (by decide)⟩
  · exact (c9_flag_token_accessor tokFlag baseState whiteUser
      ⟨some " Tok ", none, none, none⟩ 0).2.2.2.1 50 "tok"

/-- C10: every flag created through the add view carries the fixed
classification type=file, platform=Nix, required-permission=User; Nix flags
never join the Windows column, and a group whose solved flags all require
only User weighs as a User-level (0.5) group. -/
theorem c10_fixed_classification :
    ∀ (s : DBState) (u : User) (req : AddRequest) (now : Int),
    ((mkNewFlag s req now).type = .file ∧ (mkNewFlag s req now).platform = .nix ∧
      (mkNewFlag s req now).perm = .user) ∧
    ((api_flags_add s u req now).2.flags = s.flags ∨
      (api_flags_add s u req now).2.flags = s.flags ++ [mkNewFlag s req now]) ∧
    (∀ (st : DBState) (r : Solve × Flag), r ∈ platformRows .windows st →
      r.2.platform = .windows) ∧
    (∀ (st : DBState) (p : Platform) (k : GroupKey),
      (∀ r, r ∈ platformRows p st → rowKey r = k → r.2.perm = Perm.user) →
      groupLevelRoot p st k = false) := by
  intro s u req now
  refine ⟨⟨rfl, rfl, rfl⟩, ?_, ?_, ?_⟩
  · by_cases hw : u.is_white_team = true
    · by_cases hc : (pyStrip (req.content.getD "") == "") = true
      · left
        simp [api_flags_add, hw, hc]
      · by_cases hlt : req.end_time.getD ((req.start_time.getD now) + 10800) ≤
            req.start_time.getD now
        · left
          simp [api_flags_add, hw, hc, hlt]
        · right
          simp [api_flags_add, hw, hc, hlt]
    · left
      simp [api_flags_add, hw]
  · intro st r hr
    unfold platformRows at hr
    rw [List.mem_filter] at hr
    simpa using hr.2
  · intro st p k hall
    unfold groupLevelRoot
    rw [List.any_eq_false]
    intro r hr
    intro hcontra
    simp only [Bool.and_eq_true, beq_iff_eq] at hcontra
    have := hall r hr hcontra.1
    rw [this] at hcontra
    exact Perm.noConfusion (hcontra.2)

theorem c10_fixed_classification_witness :
    winFlag.platform = .windows ∧
    groupLevelRoot .nix userSolveState ⟨1, "h", 0⟩ = false := by
  constructor
  · exact (c10_fixed_classification winSolveState whiteUser
      ⟨some "x", none, none, none⟩ 0).2.2.1 winSolveState (⟨1, "h", 5⟩, winFlag)
      (by decide)
  · exact (c10_fixed_classification userSolveState whiteUser
      ⟨some "x", none, none, none⟩ 0).2.2.2 userSolveState .nix ⟨1, "h", 0⟩
      (by decide)

end ScoringEngine
